import Mathlib

/-!
Verification of the mock testnet daemon's transaction-dispatching registry
(`handleBroadcastTx` and the query handlers in the Go source).

The embedding mirrors the Go code directly:
* decoded JSON values (`interface{}` after `json.Unmarshal`) become the
  inductive `Json`; a decoded top-level body (`map[string]interface{}`)
  is a `List (String × Json)` association list;
* `json.Unmarshal` of an embedded string into a map is abstracted as a
  parameter `parse : String → Option (List (String × Json))` (`none`
  models a decode failure or a non-object result), since the Go code
  depends on the string only through that result;
* the four process-global maps become function-valued fields of
  `DaemonState`; Go's `time.Now().Unix()` becomes an explicit `now`
  argument.
-/

/-- A decoded JSON value, as produced by Go's `json.Unmarshal` into
`interface{}`: null, booleans, numbers, strings, arrays, and objects
(association lists of fields). -/
inductive Json where
  | null : Json
  | bool (b : Bool) : Json
  | num (n : Int) : Json
  | str (s : String) : Json
  | arr (elems : List Json) : Json
  | obj (fields : List (String × Json)) : Json

/-- Field lookup in a decoded JSON object, modelling Go's `m[key]`. -/
def jlookup : List (String × Json) → String → Option Json
  | [], _ => none
  | (k, v) :: rest, key => if k = key then some v else jlookup rest key

/-- Go's type assertion `x.(string)` applied to the result of a map read:
succeeds only when the key was present and held a string. -/
def asString : Option Json → Option String
  | some (Json.str s) => some s
  | _ => none

/-- Setting a key in a decoded JSON object, modelling Go's `m[key] = v`
(replaces any existing binding for the key). -/
def setField (m : List (String × Json)) (key : String) (v : Json) :
    List (String × Json) :=
  (m.filter (fun p => p.1 ≠ key)) ++ [(key, v)]

/-- An identity record as stored in `createdDIDs` by the MsgCreateDid case:
the Go code always stores exactly the fields id, controller, created_at,
updated_at, is_active. -/
structure DIDRecord where
  id : String
  controller : String
  created_at : Int
  updated_at : Int
  is_active : Bool
deriving DecidableEq

/-- A proof record as stored in `proofsByController` by the MsgSubmitProof
case. `public_inputs` and `metadata` are the raw map reads
`msg["public_inputs"]` / `msg["metadata"]` (absent keys give `none`). -/
structure ProofRecord where
  id : String
  circuit_id : String
  prover : String
  proof_data : String
  public_inputs : Option Json
  metadata : Option Json
  is_verified : Bool
  created_at : Int

/-- The response body of the broadcast endpoint (`MockTxResponse` in Go). -/
structure MockTxResponse where
  txhash : String
  height : Int
  code : Int
  data : String
deriving DecidableEq

/-- The daemon's mutable process state: the four global maps plus the
simulated block height (`chainInfo.LatestHeight`). Go map reads of absent
keys give `none` for the two DID maps and the nil slice (modelled `[]`)
for the two by-controller list maps. -/
structure DaemonState where
  latestHeight : Int
  createdDIDs : String → Option DIDRecord
  walletToDID : String → Option String
  credentialsByController : String → List (List (String × Json))
  proofsByController : String → List ProofRecord

/-- The state at process start: height 1000 and the four maps empty. -/
def initState : DaemonState where
  latestHeight := 1000
  createdDIDs := fun _ => none
  walletToDID := fun _ => none
  credentialsByController := fun _ => []
  proofsByController := fun _ => []

/-- `createdDIDs[didId] = record`: unconditional store into the identity
registry, overwriting any record already at that key. -/
def insertIdentity (st : DaemonState) (identifier : String)
    (record : DIDRecord) : DaemonState :=
  { st with createdDIDs :=
      fun k => if k = identifier then some record else st.createdDIDs k }

/-- Resolution of the `did_document` field in a MsgCreateDid message:
a string value is JSON-decoded (`parse`), an object value is used as-is,
anything else (or a decode failure) is a validation failure. -/
def resolveDidDoc (parse : String → Option (List (String × Json)))
    (msg : List (String × Json)) : Option (List (String × Json)) :=
  match jlookup msg "did_document" with
  | some (Json.str s) => parse s
  | some (Json.obj o) => some o
  | _ => none

/-- The `/persona.did.v1.MsgCreateDid` case of the broadcast switch:
resolve the document, require string `id` and `controller` fields, then
store the identity record and update the controller index. Any failure
leaves the state unchanged. -/
def handleCreateDidMsg (parse : String → Option (List (String × Json)))
    (now : Int) (msg : List (String × Json)) (st : DaemonState) :
    DaemonState :=
  match resolveDidDoc parse msg with
  | none => st
  | some didDoc =>
    match asString (jlookup didDoc "id") with
    | none => st
    | some didId =>
      match asString (jlookup didDoc "controller") with
      | none => st
      | some controller =>
        let st1 := insertIdentity st didId
          ⟨didId, controller, now, now, true⟩
        { st1 with walletToDID :=
            fun k => if k = controller then some didId
                     else st1.walletToDID k }

/-- The metadata the MsgIssueCredential case stamps onto a decoded
credential before storing it: `created_at` then `is_revoked = false`. -/
def stampCredential (now : Int) (credential : List (String × Json)) :
    List (String × Json) :=
  setField (setField credential "created_at" (Json.num now))
    "is_revoked" (Json.bool false)

/-- The `/persona.vc.v1.MsgIssueCredential` case of the broadcast switch:
require a string `creator` and a string `vc_data` that decodes to an
object; stamp the credential and append it to the creator's list. Any
failure leaves the state unchanged. -/
def handleIssueCredentialMsg
    (parse : String → Option (List (String × Json))) (now : Int)
    (msg : List (String × Json)) (st : DaemonState) : DaemonState :=
  match asString (jlookup msg "creator") with
  | none => st
  | some creator =>
    match asString (jlookup msg "vc_data") with
    | none => st
    | some vcData =>
      match parse vcData with
      | none => st
      | some credential =>
        { st with credentialsByController :=
            fun k => if k = creator then
                st.credentialsByController k ++ [stampCredential now credential]
              else st.credentialsByController k }

/-- The prover of a MsgSubmitProof message: the string `creator` field if
present, else the string `prover` field, else the empty string (the Go
variable's zero value). -/
def resolveProver (msg : List (String × Json)) : String :=
  match asString (jlookup msg "creator") with
  | some creator => creator
  | none =>
    match asString (jlookup msg "prover") with
    | some p => p
    | none => ""

/-- The payload of a MsgSubmitProof message: the string `proof` field if
present, else the string `proof_data` field, else the empty string. -/
def resolveProofData (msg : List (String × Json)) : String :=
  match asString (jlookup msg "proof") with
  | some proof => proof
  | none =>
    match asString (jlookup msg "proof_data") with
    | some pd => pd
    | none => ""

/-- The `/persona.zk.v1.MsgSubmitProof` case of the broadcast switch:
require a string `circuit_id` and nonempty resolved prover and payload;
append a proof record with `is_verified = true` to the prover's list.
Otherwise the state is unchanged (the Go code only logs). -/
def handleSubmitProofMsg (now : Int) (msg : List (String × Json))
    (st : DaemonState) : DaemonState :=
  let prover := resolveProver msg
  let proofData := resolveProofData msg
  match asString (jlookup msg "circuit_id") with
  | none => st
  | some circuitId =>
    if prover = "" ∨ proofData = "" then st
    else
      { st with proofsByController :=
          fun k => if k = prover then
              st.proofsByController k ++
                [⟨"proof_" ++ toString now, circuitId, prover, proofData,
                  jlookup msg "public_inputs", jlookup msg "metadata",
                  true, now⟩]
            else st.proofsByController k }

/-- The type switch of `handleBroadcastTx`: dispatch on the string
`@type` field of the message; unrecognized types run no handler. -/
def processMsg (parse : String → Option (List (String × Json)))
    (now : Int) (msg : List (String × Json)) (st : DaemonState) :
    DaemonState :=
  match asString (jlookup msg "@type") with
  | none => st
  | some msgType =>
    if msgType = "/persona.did.v1.MsgCreateDid" then
      handleCreateDidMsg parse now msg st
    else if msgType = "/persona.vc.v1.MsgIssueCredential" then
      handleIssueCredentialMsg parse now msg st
    else if msgType = "/persona.zk.v1.MsgSubmitProof" then
      handleSubmitProofMsg now msg st
    else st

/-- The message-classifier step of `handleBroadcastTx`: a `msgs` array at
top level (flat shape), else the nested `tx.body.messages` array
(standard shape), else no messages. -/
def extractMsgs (txData : List (String × Json)) : List Json :=
  match jlookup txData "msgs" with
  | some (Json.arr ms) => ms
  | _ =>
    match jlookup txData "tx" with
    | some (Json.obj tx) =>
      match jlookup tx "body" with
      | some (Json.obj b) =>
        match jlookup b "messages" with
        | some (Json.arr ms) => ms
        | _ => []
      | _ => []
    | _ => []

/-- The state-mutating part of `handleBroadcastTx`: `body = none` models
an unreadable body or one that does not decode to a JSON object; with a
decoded body, only the first extracted message is handled, and only when
it is an object. -/
def processBroadcastBody (parse : String → Option (List (String × Json)))
    (now : Int) (body : Option (List (String × Json)))
    (st : DaemonState) : DaemonState :=
  match body with
  | none => st
  | some txData =>
    match extractMsgs txData with
    | [] => st
    | m :: _ =>
      match m with
      | Json.obj msg => processMsg parse now msg st
      | _ => st

/-- Go's `fmt.Sprintf("0x%064d", now)`: the decimal digits left-padded
with zeros to width 64, prefixed with `0x`. -/
def mkTxHash (now : Int) : String :=
  "0x" ++ (String.mk (List.replicate (64 - (toString now).length) '0')
    ++ toString now)

/-- `handleBroadcastTx`: run the classifier and at most one handler over
the decoded body, then unconditionally answer with the synthetic success
receipt (code 0, empty data, hash derived from the timestamp, current
simulated height). -/
def handleBroadcastTx (parse : String → Option (List (String × Json)))
    (now : Int) (body : Option (List (String × Json)))
    (st : DaemonState) : DaemonState × MockTxResponse :=
  (processBroadcastBody parse now body st,
   { txhash := mkTxHash now, height := st.latestHeight, code := 0,
     data := "" })

/-- `handleGetDID`: return the stored record for the identifier if
present, else fabricate a demo record with the requested id, the fixed
controller `cosmos1test1`, current timestamps, and `is_active = true`. -/
def handleGetDID (now : Int) (st : DaemonState) (id : String) :
    DIDRecord :=
  match st.createdDIDs id with
  | some did => did
  | none => ⟨id, "cosmos1test1", now, now, true⟩

/-- `handleGetDIDByController`: resolve the controller through the
`walletToDID` index, then re-fetch the record by identifier; `none`
(a null `did_document` in the response) if either step misses. -/
def handleGetDIDByController (st : DaemonState) (controller : String) :
    Option DIDRecord :=
  match st.walletToDID controller with
  | some didId =>
    match st.createdDIDs didId with
    | some did => some did
    | none => none
  | none => none

/-- `handleGetCredentialsByController`: the stored list for the
controller, the empty list when the controller is unknown. -/
def handleGetCredentialsByController (st : DaemonState)
    (controller : String) : List (List (String × Json)) :=
  st.credentialsByController controller

/-- `handleGetProofsByController`: the stored list for the controller,
the empty list when the controller is unknown. -/
def handleGetProofsByController (st : DaemonState)
    (controller : String) : List ProofRecord :=
  st.proofsByController controller

/-- A transaction body in the flat shape: a top-level `msgs` array. -/
def flatTxBody (msgs : List Json) : List (String × Json) :=
  [("msgs", Json.arr msgs)]

/-- A transaction body in the standard shape: a nested
`tx.body.messages` array. -/
def nestedTxBody (msgs : List Json) : List (String × Json) :=
  [("tx", Json.obj [("body", Json.obj [("messages", Json.arr msgs)])])]

/-- Claim C1: every POST body to the broadcast endpoint — undecodable
JSON included (`body = none`) — yields the synthetic success receipt:
code 0, empty data, the timestamp-derived txhash, and the current
simulated height; no input ever yields a non-success result. -/
theorem broadcast_always_success
    (parse : String → Option (List (String × Json))) (now : Int)
    (body : Option (List (String × Json))) (st : DaemonState) :
    (handleBroadcastTx parse now body st).2.code = 0
    ∧ (handleBroadcastTx parse now body st).2.data = ""
    ∧ (handleBroadcastTx parse now body st).2.txhash = mkTxHash now
    ∧ (handleBroadcastTx parse now body st).2.height = st.latestHeight :=
  ⟨rfl, rfl, rfl, rfl⟩

/-- Claim C2: inserting two identity records under the same identifier
leaves only the second retrievable by primary key — both as the raw
registry read and through the primary-key query; insertion is an
unconditional overwrite with no error condition. -/
theorem insertIdentity_overwrite (now : Int) (st : DaemonState)
    (identifier : String) (r1 r2 : DIDRecord) :
    (insertIdentity (insertIdentity st identifier r1) identifier
        r2).createdDIDs identifier = some r2
    ∧ handleGetDID now
        (insertIdentity (insertIdentity st identifier r1) identifier r2)
        identifier = r2 := by
  constructor <;> simp [insertIdentity, handleGetDID]

/-- Claim C6: in a multi-message envelope (either accepted shape), only
the first message is handled: the full result of the broadcast call on
`m :: rest` equals the result on just `[m]`, for every tail `rest`. -/
theorem broadcast_first_msg_only
    (parse : String → Option (List (String × Json))) (now : Int)
    (st : DaemonState) (m : Json) (rest : List Json) :
    handleBroadcastTx parse now (some (flatTxBody (m :: rest))) st
      = handleBroadcastTx parse now (some (flatTxBody [m])) st
    ∧ handleBroadcastTx parse now (some (nestedTxBody (m :: rest))) st
      = handleBroadcastTx parse now (some (nestedTxBody [m])) st := by
  constructor <;> rfl

/-- Reduction of the string type assertion on a string value. -/
theorem asString_str (s : String) :
    asString (some (Json.str s)) = some s := rfl

/-- Claim C5: a transaction whose first message carries a type
discriminator other than the three known strings leaves the entire
daemon state (all registries and the controller index) unchanged, and
the call still returns code 0. -/
theorem broadcast_unknown_type_noop
    (parse : String → Option (List (String × Json))) (now : Int)
    (st : DaemonState) (txData : List (String × Json))
    (msg : List (String × Json)) (rest : List Json) (t : String)
    (hm : extractMsgs txData = Json.obj msg :: rest)
    (ht : jlookup msg "@type" = some (Json.str t))
    (h1 : t ≠ "/persona.did.v1.MsgCreateDid")
    (h2 : t ≠ "/persona.vc.v1.MsgIssueCredential")
    (h3 : t ≠ "/persona.zk.v1.MsgSubmitProof") :
    (handleBroadcastTx parse now (some txData) st).1 = st
    ∧ (handleBroadcastTx parse now (some txData) st).2.code = 0 := by
  refine ⟨?_, rfl⟩
  simp [handleBroadcastTx, processBroadcastBody, hm, processMsg,
    asString_str, ht, h1, h2, h3]

/-- Concrete run of the unknown-type no-op: a flat envelope whose one
message has type `/persona.fake.v1.MsgOther` leaves `initState`
unchanged and returns code 0. -/
theorem broadcast_unknown_type_noop_witness :
    (handleBroadcastTx (fun _ => none) 5
      (some (flatTxBody
        [Json.obj [("@type", Json.str "/persona.fake.v1.MsgOther")]]))
      initState).1 = initState
    ∧ (handleBroadcastTx (fun _ => none) 5
      (some (flatTxBody
        [Json.obj [("@type", Json.str "/persona.fake.v1.MsgOther")]]))
      initState).2.code = 0 :=
  broadcast_unknown_type_noop (fun _ => none) 5 initState _
    [("@type", Json.str "/persona.fake.v1.MsgOther")] []
    "/persona.fake.v1.MsgOther" rfl rfl (by decide) (by decide)
    (by decide)

/-- Claim C7: a credential-issuance message whose `creator` field is
absent or not a string mutates no registry at all, while the outer
transaction still reports success (code 0). -/
theorem issue_missing_creator_noop
    (parse : String → Option (List (String × Json))) (now : Int)
    (st : DaemonState) (txData : List (String × Json))
    (msg : List (String × Json)) (rest : List Json)
    (hm : extractMsgs txData = Json.obj msg :: rest)
    (ht : jlookup msg "@type" =
      some (Json.str "/persona.vc.v1.MsgIssueCredential"))
    (hc : asString (jlookup msg "creator") = none) :
    (handleBroadcastTx parse now (some txData) st).1 = st
    ∧ (handleBroadcastTx parse now (some txData) st).2.code = 0 := by
  refine ⟨?_, rfl⟩
  simp [handleBroadcastTx, processBroadcastBody, hm, processMsg,
    asString_str, ht, handleIssueCredentialMsg, hc]

/-- Concrete run of the missing-creator no-op: an issuance message with
no `creator` field leaves `initState` unchanged and returns code 0. -/
theorem issue_missing_creator_noop_witness :
    (handleBroadcastTx (fun _ => none) 7
      (some (flatTxBody
        [Json.obj
          [("@type", Json.str "/persona.vc.v1.MsgIssueCredential"),
           ("vc_data", Json.str "x")]]))
      initState).1 = initState
    ∧ (handleBroadcastTx (fun _ => none) 7
      (some (flatTxBody
        [Json.obj
          [("@type", Json.str "/persona.vc.v1.MsgIssueCredential"),
           ("vc_data", Json.str "x")]]))
      initState).2.code = 0 :=
  issue_missing_creator_noop (fun _ => none) 7 initState _
    [("@type", Json.str "/persona.vc.v1.MsgIssueCredential"),
     ("vc_data", Json.str "x")] [] rfl rfl rfl

/-- Claim C9: the primary-key identity query never reports absence: an
identifier not in the registry gets a synthesized record with the
requested id and the fixed demo controller `cosmos1test1`, while an
identifier in the registry gets its stored record. -/
theorem getDID_fallback (now : Int) (st : DaemonState) (id : String) :
    (st.createdDIDs id = none →
      handleGetDID now st id = ⟨id, "cosmos1test1", now, now, true⟩)
    ∧ ∀ r, st.createdDIDs id = some r → handleGetDID now st id = r := by
  constructor
  · intro h
    simp [handleGetDID, h]
  · intro r h
    simp [handleGetDID, h]

/-- Concrete runs of the primary-key query: the fallback for an unknown
id on the empty state, and the stored record for a present id. -/
theorem getDID_fallback_witness :
    handleGetDID 3 initState "did:persona:zzz"
      = ⟨"did:persona:zzz", "cosmos1test1", 3, 3, true⟩
    ∧ handleGetDID 3
        (insertIdentity initState "did:a" ⟨"did:a", "alice", 1, 1, true⟩)
        "did:a" = ⟨"did:a", "alice", 1, 1, true⟩ :=
  ⟨(getDID_fallback 3 initState "did:persona:zzz").1 rfl,
   (getDID_fallback 3
      (insertIdentity initState "did:a" ⟨"did:a", "alice", 1, 1, true⟩)
      "did:a").2 _ (by simp [insertIdentity, initState])⟩

/-- Claim C4: after a successful identity-creation transaction whose
document carries id `X` and controller `C`, the primary-key query for
`X` and the by-controller query for `C` both return a record whose id
equals `X`. -/
theorem create_cross_index
    (parse : String → Option (List (String × Json))) (now now2 : Int)
    (st : DaemonState) (txData : List (String × Json))
    (msg : List (String × Json)) (rest : List Json)
    (doc : List (String × Json)) (X C : String)
    (hm : extractMsgs txData = Json.obj msg :: rest)
    (ht : jlookup msg "@type" =
      some (Json.str "/persona.did.v1.MsgCreateDid"))
    (hd : resolveDidDoc parse msg = some doc)
    (hid : jlookup doc "id" = some (Json.str X))
    (hctrl : jlookup doc "controller" = some (Json.str C)) :
    (handleGetDID now2 (handleBroadcastTx parse now (some txData) st).1
        X).id = X
    ∧ ∃ r, handleGetDIDByController
        (handleBroadcastTx parse now (some txData) st).1 C = some r
        ∧ r.id = X := by
  have hst : (handleBroadcastTx parse now (some txData) st).1
      = handleCreateDidMsg parse now msg st := by
    simp [handleBroadcastTx, processBroadcastBody, hm, processMsg,
      asString_str, ht]
  constructor
  · rw [hst]
    simp [handleCreateDidMsg, hd, hid, hctrl, asString_str,
      handleGetDID, insertIdentity]
  · refine ⟨⟨X, C, now, now, true⟩, ?_, rfl⟩
    rw [hst]
    simp [handleCreateDidMsg, hd, hid, hctrl, asString_str,
      handleGetDIDByController, insertIdentity]

/-- Concrete run of the cross-index property: creating
`(id = did:x:1, controller = addrA)` through a standard-shape envelope
makes both queries return a record with id `did:x:1`. -/
theorem create_cross_index_witness :
    (handleGetDID 9 (handleBroadcastTx (fun _ => none) 8
      (some (nestedTxBody
        [Json.obj
          [("@type", Json.str "/persona.did.v1.MsgCreateDid"),
           ("did_document", Json.obj
             [("id", Json.str "did:x:1"),
              ("controller", Json.str "addrA")])]]))
      initState).1 "did:x:1").id = "did:x:1"
    ∧ ∃ r, handleGetDIDByController (handleBroadcastTx (fun _ => none) 8
        (some (nestedTxBody
          [Json.obj
            [("@type", Json.str "/persona.did.v1.MsgCreateDid"),
             ("did_document", Json.obj
               [("id", Json.str "did:x:1"),
                ("controller", Json.str "addrA")])]]))
        initState).1 "addrA" = some r ∧ r.id = "did:x:1" :=
  create_cross_index (fun _ => none) 8 9 initState _
    [("@type", Json.str "/persona.did.v1.MsgCreateDid"),
     ("did_document", Json.obj
       [("id", Json.str "did:x:1"), ("controller", Json.str "addrA")])]
    [] [("id", Json.str "did:x:1"), ("controller", Json.str "addrA")]
    "did:x:1" "addrA" rfl rfl rfl rfl rfl

/-- A flat-shape creation transaction for the document
`(id = X, controller = C)`. -/
def createDidTx (X C : String) : List (String × Json) :=
  flatTxBody
    [Json.obj
      [("@type", Json.str "/persona.did.v1.MsgCreateDid"),
       ("did_document", Json.obj
         [("id", Json.str X), ("controller", Json.str C)])]]

/-- Claim C10: the controller index is never cleared: after creating
identifier `X` with controller `C1` and then re-creating `X` with a
different controller `C2`, the by-controller query for the old
controller `C1` still returns `X`'s record, whose controller field now
equals `C2` and so differs from the queried controller. -/
theorem controller_index_stale
    (parse : String → Option (List (String × Json))) (now1 now2 : Int)
    (st : DaemonState) (X C1 C2 : String) (h : C1 ≠ C2) :
    ∃ r, handleGetDIDByController
        ((handleBroadcastTx parse now2 (some (createDidTx X C2))
          ((handleBroadcastTx parse now1 (some (createDidTx X C1))
            st).1)).1) C1
      = some r ∧ r.id = X ∧ r.controller = C2 ∧ r.controller ≠ C1 := by
  refine ⟨⟨X, C2, now2, now2, true⟩, ?_, rfl, rfl, Ne.symm h⟩
  simp [handleBroadcastTx, processBroadcastBody, createDidTx,
    flatTxBody, extractMsgs, jlookup, processMsg, asString,
    handleCreateDidMsg, resolveDidDoc, insertIdentity,
    handleGetDIDByController, h]

/-- Concrete run of the stale-index behavior: create `did:x:1` with
controller `addrA`, re-create it with controller `addrB`; the query for
`addrA` still returns the record, now carrying controller `addrB`. -/
theorem controller_index_stale_witness :
    ∃ r, handleGetDIDByController
        ((handleBroadcastTx (fun _ => none) 12
          (some (createDidTx "did:x:1" "addrB"))
          ((handleBroadcastTx (fun _ => none) 11
            (some (createDidTx "did:x:1" "addrA")) initState).1)).1)
        "addrA"
      = some r ∧ r.id = "did:x:1" ∧ r.controller = "addrB"
        ∧ r.controller ≠ "addrA" :=
  controller_index_stale (fun _ => none) 11 12 initState "did:x:1"
    "addrA" "addrB" (by decide)

/-- A standard-shape issuance transaction for the given creator and
string-encoded credential payload. -/
def issueCredentialTx (creator vcData : String) :
    List (String × Json) :=
  nestedTxBody
    [Json.obj
      [("@type", Json.str "/persona.vc.v1.MsgIssueCredential"),
       ("creator", Json.str creator), ("vc_data", Json.str vcData)]]

/-- The state after broadcasting one issuance transaction per payload
string, in list order. -/
def issueMany (parse : String → Option (List (String × Json)))
    (now : Int) (creator : String) :
    List String → DaemonState → DaemonState
  | [], st => st
  | vcData :: rest, st =>
    issueMany parse now creator rest
      (handleBroadcastTx parse now
        (some (issueCredentialTx creator vcData)) st).1

/-- One issuance transaction whose payload decodes appends exactly the
stamped credential to the creator's list. -/
theorem issue_step (parse : String → Option (List (String × Json)))
    (now : Int) (creator s : String) (o : List (String × Json))
    (st : DaemonState) (hp : parse s = some o) :
    (handleBroadcastTx parse now (some (issueCredentialTx creator s))
        st).1
      = { st with credentialsByController :=
          fun k => if k = creator then
              st.credentialsByController k ++ [stampCredential now o]
            else st.credentialsByController k } := by
  simp [handleBroadcastTx, processBroadcastBody, issueCredentialTx,
    nestedTxBody, extractMsgs, jlookup, processMsg, asString,
    handleIssueCredentialMsg, hp]

/-- Issuing a list of decodable payloads appends their stamped
credentials to the creator's list, in order. -/
theorem issueMany_creds (parse : String → Option (List (String × Json)))
    (now : Int) (creator : String) :
    ∀ (ps : List (String × List (String × Json))) (st : DaemonState),
    (∀ p ∈ ps, parse p.1 = some p.2) →
    (issueMany parse now creator (ps.map Prod.fst)
        st).credentialsByController creator
      = st.credentialsByController creator
        ++ ps.map (fun p => stampCredential now p.2)
  | [], st, _ => by simp [issueMany]
  | p :: ps, st, h => by
    have hp : parse p.1 = some p.2 := h p (List.mem_cons_self ..)
    have hrest : ∀ q ∈ ps, parse q.1 = some q.2 :=
      fun q hq => h q (List.mem_cons_of_mem p hq)
    simp only [List.map_cons, issueMany]
    rw [issue_step parse now creator p.1 p.2 st hp,
      issueMany_creds parse now creator ps _ hrest]
    simp

/-- Claim C3: submitting N valid credential-issuance transactions for
the same controller (starting from a state with no credentials for it)
makes the by-controller query return exactly N records, one stamped
credential per transaction, in submission order. -/
theorem issue_fanout (parse : String → Option (List (String × Json)))
    (now : Int) (creator : String)
    (ps : List (String × List (String × Json))) (st : DaemonState)
    (hps : ∀ p ∈ ps, parse p.1 = some p.2)
    (h0 : st.credentialsByController creator = []) :
    handleGetCredentialsByController
        (issueMany parse now creator (ps.map Prod.fst) st) creator
      = ps.map (fun p => stampCredential now p.2)
    ∧ (handleGetCredentialsByController
        (issueMany parse now creator (ps.map Prod.fst) st)
        creator).length = ps.length := by
  have h := issueMany_creds parse now creator ps st hps
  rw [h0] at h
  refine ⟨?_, ?_⟩
  · simpa [handleGetCredentialsByController] using h
  · simp [handleGetCredentialsByController, h]

/-- Concrete run of the fan-out: two issuance transactions for `addrB`
with distinct decodable payloads yield exactly their two stamped
credentials, in submission order. -/
theorem issue_fanout_witness :
    handleGetCredentialsByController
        (issueMany
          (fun s => if s = "a" then some [("n", Json.num 1)]
                    else if s = "b" then some [("n", Json.num 2)]
                    else none)
          21 "addrB"
          (([("a", [("n", Json.num 1)]),
             ("b", [("n", Json.num 2)])].map Prod.fst))
          initState) "addrB"
      = [("a", [("n", Json.num 1)]),
         ("b", [("n", Json.num 2)])].map
          (fun p => stampCredential 21 p.2)
    ∧ (handleGetCredentialsByController
        (issueMany
          (fun s => if s = "a" then some [("n", Json.num 1)]
                    else if s = "b" then some [("n", Json.num 2)]
                    else none)
          21 "addrB"
          (([("a", [("n", Json.num 1)]),
             ("b", [("n", Json.num 2)])].map Prod.fst))
          initState) "addrB").length
      = ([("a", [("n", Json.num 1)]),
          ("b", [("n", Json.num 2)])] :
          List (String × List (String × Json))).length :=
  issue_fanout
    (fun s => if s = "a" then some [("n", Json.num 1)]
              else if s = "b" then some [("n", Json.num 2)]
              else none)
    21 "addrB"
    [("a", [("n", Json.num 1)]), ("b", [("n", Json.num 2)])]
    initState
    (by
      intro p hp
      rcases List.mem_cons.mp hp with h | hp2
      · subst h
        rfl
      · rcases List.mem_cons.mp hp2 with h | h3
        · subst h
          rfl
        · exact absurd h3 (List.not_mem_nil p))
    rfl

/-- A proof-submission message that supplies a prover under the
accepted field name `prover`, a payload under `proof`, and a
`circuit_id` — yet also carries an empty-string `creator`. -/
def submitMsgShadowedProver : List (String × Json) :=
  [("@type", Json.str "/persona.zk.v1.MsgSubmitProof"),
   ("creator", Json.str ""),
   ("prover", Json.str "alice"),
   ("proof", Json.str "p1"),
   ("circuit_id", Json.str "c1")]

/-- Claim C8 refutation: this message supplies a prover (`alice` under
the `prover` field), a payload (under `proof`), and a circuit id, yet
broadcasting it appends no proof record to any list: the empty `creator`
string wins the field-name resolution and fails the nonemptiness check,
so the state is exactly unchanged. -/
theorem submit_proof_counterexample :
    jlookup submitMsgShadowedProver "prover" = some (Json.str "alice")
    ∧ jlookup submitMsgShadowedProver "proof" = some (Json.str "p1")
    ∧ jlookup submitMsgShadowedProver "circuit_id"
        = some (Json.str "c1")
    ∧ (handleBroadcastTx (fun _ => none) 13
        (some (flatTxBody [Json.obj submitMsgShadowedProver]))
        initState).1 = initState
    ∧ handleGetProofsByController
        (handleBroadcastTx (fun _ => none) 13
          (some (flatTxBody [Json.obj submitMsgShadowedProver]))
          initState).1 "alice" = [] :=
  ⟨rfl, rfl, rfl, rfl, rfl⟩

/-- Claim C8 (amended): when the resolved prover (the `creator` field
if it is a string, else the `prover` field) and the resolved payload
(the `proof` field if a string, else `proof_data`) are both nonempty
and a string `circuit_id` is present, a proof record is appended to the
resolved prover's list with `is_verified = true` and `prover` equal to
the resolved prover; when the `circuit_id` is missing or either
resolved value is empty, no proof is appended anywhere. -/
theorem submit_proof_spec :
    (∀ (now : Int) (st : DaemonState) (msg : List (String × Json))
      (cid : String),
      asString (jlookup msg "circuit_id") = some cid →
      resolveProver msg ≠ "" → resolveProofData msg ≠ "" →
      ∃ r, (handleSubmitProofMsg now msg st).proofsByController
            (resolveProver msg)
          = st.proofsByController (resolveProver msg) ++ [r]
        ∧ r.is_verified = true ∧ r.prover = resolveProver msg)
    ∧ (∀ (now : Int) (st : DaemonState) (msg : List (String × Json)),
      (asString (jlookup msg "circuit_id") = none
        ∨ resolveProver msg = "" ∨ resolveProofData msg = "") →
      handleSubmitProofMsg now msg st = st) := by
  constructor
  · intro now st msg cid hcid hp hd
    refine ⟨⟨"proof_" ++ toString now, cid, resolveProver msg,
      resolveProofData msg, jlookup msg "public_inputs",
      jlookup msg "metadata", true, now⟩, ?_, rfl, rfl⟩
    simp [handleSubmitProofMsg, hcid, hp, hd]
  · intro now st msg h
    rcases h with h | h | h
    · simp [handleSubmitProofMsg, h]
    · cases hc : asString (jlookup msg "circuit_id") with
      | none => simp [handleSubmitProofMsg, hc]
      | some cid => simp [handleSubmitProofMsg, hc, h]
    · cases hc : asString (jlookup msg "circuit_id") with
      | none => simp [handleSubmitProofMsg, hc]
      | some cid => simp [handleSubmitProofMsg, hc, h]

/-- Concrete runs of the amended proof-submission behavior: a complete
message appends a verified record for its resolved prover `addrC`, and
a message with no `circuit_id` leaves the state unchanged. -/
theorem submit_proof_spec_witness :
    (∃ r, (handleSubmitProofMsg 13
          [("creator", Json.str "addrC"),
           ("circuit_id", Json.str "circ1"),
           ("proof", Json.str "zkp")] initState).proofsByController
          (resolveProver
            [("creator", Json.str "addrC"),
             ("circuit_id", Json.str "circ1"),
             ("proof", Json.str "zkp")])
        = initState.proofsByController
            (resolveProver
              [("creator", Json.str "addrC"),
               ("circuit_id", Json.str "circ1"),
               ("proof", Json.str "zkp")]) ++ [r]
      ∧ r.is_verified = true
      ∧ r.prover = resolveProver
          [("creator", Json.str "addrC"),
           ("circuit_id", Json.str "circ1"),
           ("proof", Json.str "zkp")])
    ∧ handleSubmitProofMsg 13
        [("creator", Json.str "addrC"), ("proof", Json.str "zkp")]
        initState = initState :=
  ⟨submit_proof_spec.1 13 initState
      [("creator", Json.str "addrC"),
       ("circuit_id", Json.str "circ1"),
       ("proof", Json.str "zkp")] "circ1" rfl (by decide) (by decide),
   submit_proof_spec.2 13 initState
      [("creator", Json.str "addrC"), ("proof", Json.str "zkp")]
      (Or.inl rfl)⟩
